import Mathlib

/-!
# Verification of the janus synthetic quad generators

Shallow embedding of the two generator scripts
`generate_historical_graph.py` and `generate_realistic_data.py`.

Python integers are embedded as `ℤ`/`ℕ`; the floating-point values of the
realistic generator are embedded as real numbers (the script's
trigonometric value model), with the per-call uniform noise draws
`random.uniform(-0.5, 0.5)` passed in as explicit parameters in
`[-0.5, 0.5]`; `f"{v:.2f}"` formatting is embedded as decimal rendering of
the value rounded to centi-units (the digit-shape properties proved below
are independent of the rounding mode, so the difference between Python's
round-half-even on binary floats and `round` on ℝ is immaterial).
Strings are Lean `String`s built exactly like the source f-strings, and
the file written by a run is the list of emitted lines in emission order.
-/

namespace Janus

/-! ## Decimal rendering of integers (embedding of Python's int formatting) -/

/-- The ASCII digit character for `n < 10`. -/
def digitChar (n : ℕ) : Char := Char.ofNat (48 + n)

/-- Decimal digits of a natural number, most significant first
(the character sequence Python's `f"{n}"` produces for `n ≥ 0`). -/
def natChars (n : ℕ) : List Char :=
  if h10 : n < 10 then [digitChar n]
  else natChars (n / 10) ++ [digitChar (n % 10)]
termination_by n
decreasing_by
  exact Nat.div_lt_self (by omega) (by omega)

/-- Decimal rendering of an integer (Python's `f"{n}"` for an `int`). -/
def intChars (n : ℤ) : List Char :=
  if n < 0 then '-' :: natChars n.natAbs else natChars n.natAbs

def natStr (n : ℕ) : String := ⟨natChars n⟩

def intStr (n : ℤ) : String := ⟨intChars n⟩

/-! ## Whitespace-splitting of a line, respecting the quoted literal -/

/-- Unquoted whitespace: the separators appearing in an emitted line. -/
def isWS (c : Char) : Bool := c == ' ' || c == '\n'

/-- A character that neither separates tokens nor toggles quoting. -/
def plain (c : Char) : Bool := !isWS c && !(c == '"')

/-- Split a character list on unquoted whitespace; the Bool is the
"inside a quoted literal" state. The head of the result is the token
being accumulated. -/
def splitF : List Char → Bool → List (List Char)
  | [], _ => [[]]
  | c :: cs, q =>
    if !q && isWS c then
      [] :: splitF cs false
    else
      match splitF cs (if c == '"' then !q else q) with
      | [] => [[c]]
      | t :: ts => (c :: t) :: ts

/-- The nonempty whitespace-separated tokens of a character list,
treating a quoted literal as a single token. -/
def fieldsOf (l : List Char) : List (List Char) :=
  (splitF l false).filter (fun t => !t.isEmpty)

/-- The logical fields of an emitted line. -/
def lineFields (s : String) : List (List Char) := fieldsOf s.data

/-- Number of characters after the last `'.'` of a string (the length of
its fractional-digit block when the string is a decimal literal). -/
def fracDigitsLen (s : String) : ℕ :=
  (s.data.reverse.takeWhile (fun c => !(c == '.'))).length

/-! ## generate_historical_graph.py -/

/-- `one_hour_ago = now - (60 * 60 * 1000)` -/
def one_hour_ago (now : ℤ) : ℤ := now - (60 * 60 * 1000)

/-- `timestamp = one_hour_ago + (i * 1000)` -/
def histTimestamp (now : ℤ) (i : ℕ) : ℤ := one_hour_ago now + (i * 1000)

/-- Sensor-1 value of the historical generator: `20 + (i % 5)`. -/
def histVal1 (i : ℕ) : ℕ := 20 + (i % 5)

/-- Sensor-2 value of the historical generator: `22 + (i % 5)`. -/
def histVal2 (i : ℕ) : ℕ := 22 + (i % 5)

/-- The sensor-1 line written by the historical generator at index `i`. -/
def histLine1 (now : ℤ) (i : ℕ) : String :=
  intStr (histTimestamp now i) ++
    " <http://example.org/sensor1> <http://example.org/temperature> \"" ++
    natStr (histVal1 i) ++
    "\"^^<http://www.w3.org/2001/XMLSchema#decimal> <http://example.org/sensorStream> .\n"

/-- The sensor-2 line written by the historical generator at index `i`. -/
def histLine2 (now : ℤ) (i : ℕ) : String :=
  intStr (histTimestamp now i) ++
    " <http://example.org/sensor2> <http://example.org/temperature> \"" ++
    natStr (histVal2 i) ++
    "\"^^<http://www.w3.org/2001/XMLSchema#decimal> <http://example.org/sensorStream> .\n"

/-! ## generate_realistic_data.py -/

def num_points : ℕ := 1000

def base_temp : ℝ := 23.0

/-- `timestamp = 1000 * i` (dummy, index-based timestamp). -/
def realTimestamp (i : ℕ) : ℕ := 1000 * i

/-- `sine_component = 2.0 * math.sin(i * 2 * math.pi / 100)` -/
noncomputable def sine_component (i : ℕ) : ℝ :=
  2.0 * Real.sin (i * 2 * Real.pi / 100)

/-- `cosine_component = 2.0 * math.cos(i * 2 * math.pi / 100)` -/
noncomputable def cosine_component (i : ℕ) : ℝ :=
  2.0 * Real.cos (i * 2 * Real.pi / 100)

/-- `val1 = base_temp + sine_component + noise`; the draw
`noise = random.uniform(-0.5, 0.5)` is the explicit parameter `noise`. -/
noncomputable def val1 (i : ℕ) (noise : ℝ) : ℝ :=
  base_temp + sine_component i + noise

/-- `val2 = base_temp + cosine_component + noise2`. -/
noncomputable def val2 (i : ℕ) (noise2 : ℝ) : ℝ :=
  base_temp + cosine_component i + noise2

/-- Characters of a decimal literal with exactly two fractional digits,
for the centi-unit integer `c` (so `fmt2Chars 2346 = "23.46"`; the sign
branch is never exercised by the generator, whose values exceed 20). -/
def fmt2Chars (c : ℤ) : List Char :=
  (if c < 0 then ['-'] else []) ++
    natChars (c.natAbs / 100) ++
    '.' :: [digitChar (c.natAbs / 10 % 10), digitChar (c.natAbs % 10)]

/-- Embedding of Python's `f"{v:.2f}"`: render the value rounded to
centi-units with two fractional digits. -/
noncomputable def fmtF2 (v : ℝ) : String := ⟨fmt2Chars (round (100 * v))⟩

/-- The sensor-1 line written by the realistic generator at index `i`
with noise draw `n`. -/
noncomputable def realLine1 (i : ℕ) (n : ℝ) : String :=
  natStr (realTimestamp i) ++
    " <http://example.org/sensor1> <http://example.org/temperature> \"" ++
    fmtF2 (val1 i n) ++
    "\"^^<http://www.w3.org/2001/XMLSchema#decimal> <http://example.org/sensorStream> .\n"

/-- The sensor-2 line written by the realistic generator at index `i`
with noise draw `n`. -/
noncomputable def realLine2 (i : ℕ) (n : ℝ) : String :=
  natStr (realTimestamp i) ++
    " <http://example.org/sensor2> <http://example.org/temperature> \"" ++
    fmtF2 (val2 i n) ++
    "\"^^<http://www.w3.org/2001/XMLSchema#decimal> <http://example.org/sensorStream> .\n"

/-! ## The write loops

Each iteration of the `for` loop writes the sensor-1 line, then the
sensor-2 line; after `n` iterations the file holds the lines in emission
order. -/

def emitLoop (f g : ℕ → String) : ℕ → List String
  | 0 => []
  | n + 1 => emitLoop f g n ++ [f n, g n]

/-- Lines of `data/sensors_historical_graph.nq` after a completed run. -/
def histLines (now : ℤ) : List String :=
  emitLoop (histLine1 now) (histLine2 now) 100

/-- Lines of `data/realistic_sensors.nq` after a completed run, with the
two per-iteration noise draws given by `n1` and `n2`. -/
noncomputable def realLines (n1 n2 : ℕ → ℝ) : List String :=
  emitLoop (fun i => realLine1 i (n1 i)) (fun i => realLine2 i (n2 i)) num_points

/-! ## Fixed URI segments of every emitted line -/

def predSeg : List Char := "<http://example.org/temperature>".data

def graphSeg : List Char := "<http://example.org/sensorStream>".data

def dtypeSeg : List Char := "^^<http://www.w3.org/2001/XMLSchema#decimal>".data

/-! ## File-system effect of a run

`open(path, "w")` truncates: the contents visible to the writes are empty
whatever the file held before. -/

inductive OpenMode where
  | write

/-- Contents of the file immediately after opening: mode `"w"` discards
the prior contents. -/
def openContents : OpenMode → List String → List String
  | .write, _ => []

/-- File contents after a completed run of the historical generator over
a file that previously held `prior`. -/
def runHistorical (now : ℤ) (prior : List String) : List String :=
  openContents .write prior ++ histLines now

/-- File contents after a completed run of the realistic generator over a
file that previously held `prior`. -/
noncomputable def runRealistic (n1 n2 : ℕ → ℝ) (prior : List String) : List String :=
  openContents .write prior ++ realLines n1 n2

/-! ## Fault model for the write loop

`with open(...) as f: for ...: f.write(...)` with an explicit fault
oracle: `ok k` tells whether the `k`-th write call succeeds. A failing
write raises; the `with` block closes the handle and re-raises — there is
no handler anywhere in either script. -/

/-- Attempt the writes in order starting at call index `k`: returns
whether all succeeded, and the lines actually written (a failing write
stops the loop immediately — the exception propagates). -/
def writeSeq (ok : ℕ → Bool) : ℕ → List String → Bool × List String
  | _, [] => (true, [])
  | k, l :: ls =>
    if ok k then
      let r := writeSeq ok (k + 1) ls
      (r.1, l :: r.2)
    else (false, [])

/-- Observable outcome of a run under the fault model. -/
structure RunOutcome where
  raised : Bool
  contents : List String
  closed : Bool

/-- A generator run under the fault model: `openOk` is whether
`open(path, "w")` succeeds (if not, the exception propagates and the file
keeps its prior contents); otherwise the file is truncated and the writes
run until the first failure. The scoped `with` block closes the handle on
both the normal and the exceptional exit; no cleanup or retry happens
anywhere. -/
def runScoped (lines : List String) (openOk : Bool) (ok : ℕ → Bool)
    (prior : List String) : RunOutcome :=
  match openOk with
  | true =>
    { raised := !(writeSeq ok 0 lines).1, contents := (writeSeq ok 0 lines).2,
      closed := true }
  | false => { raised := true, contents := prior, closed := true }

/-! ## Determinism of the historical generator -/

/-- The historical script's output as a function of the wall-clock sample
`now` and of an ambient randomness source `rng`: the script imports no
source of randomness, so `rng` is never consulted. -/
def histRun (now : ℤ) (rng : ℕ → ℝ) : List String := histLines now

/-- The byte content of a written file: its lines concatenated. -/
def fileText (ls : List String) : String := ls.foldl (· ++ ·) ""

end Janus

namespace Janus

/-! ## Helper lemmas: the splitter -/

theorem splitF_cons_plain {c : Char} (hc : plain c = true) (cs : List Char) (q : Bool)
    {t : List Char} {ts : List (List Char)} (h : splitF cs q = t :: ts) :
    splitF (c :: cs) q = (c :: t) :: ts := by
  have h1 : isWS c = false := by
    simp [plain] at hc; exact hc.1
  have h2 : (c == '"') = false := by
    simp [plain] at hc
    simpa using hc.2
  simp [splitF, h1, h2, h]

theorem splitF_append_plain {xs : List Char} (hxs : ∀ c ∈ xs, plain c = true)
    (cs : List Char) (q : Bool) {t : List Char} {ts : List (List Char)}
    (h : splitF cs q = t :: ts) :
    splitF (xs ++ cs) q = (xs ++ t) :: ts := by
  induction xs with
  | nil => simpa using h
  | cons c xs ih =>
    have hc : plain c = true := hxs c (by simp)
    have ih' := ih (fun d hd => hxs d (by simp [hd]))
    rw [List.cons_append, List.cons_append]
    exact splitF_cons_plain hc _ _ ih'

theorem splitF_space (cs : List Char) :
    splitF (' ' :: cs) false = [] :: splitF cs false := by
  simp [splitF, isWS]

theorem splitF_quote (cs : List Char) (q : Bool) {t : List Char}
    {ts : List (List Char)} (h : splitF cs (!q) = t :: ts) :
    splitF ('"' :: cs) q = ('"' :: t) :: ts := by
  simp [splitF, isWS, h]

theorem splitF_quadLine (ts subj lit : List Char)
    (hts : ∀ c ∈ ts, plain c = true)
    (hsubj : ∀ c ∈ subj, plain c = true)
    (hlit : ∀ c ∈ lit, plain c = true) :
    splitF (ts ++ ' ' :: (subj ++ ' ' :: (predSeg ++ ' ' ::
        ('"' :: (lit ++ '"' :: (dtypeSeg ++ ' ' ::
          (graphSeg ++ ' ' :: '.' :: '\n' :: []))))))) false
      = [ts, subj, predSeg, '"' :: (lit ++ '"' :: dtypeSeg), graphSeg, ['.'], []] := by
  have hpred : ∀ c ∈ predSeg, plain c = true := by decide
  have hgraph : ∀ c ∈ graphSeg, plain c = true := by decide
  have hdtype : ∀ c ∈ dtypeSeg, plain c = true := by decide
  have h1 : splitF (' ' :: '.' :: '\n' :: []) false = [] :: ['.'] :: [[]] := by decide
  have h2 : splitF (graphSeg ++ ' ' :: '.' :: '\n' :: []) false
      = graphSeg :: ['.'] :: [[]] := by
    simpa using splitF_append_plain hgraph _ false h1
  have h3 : splitF (' ' :: (graphSeg ++ ' ' :: '.' :: '\n' :: [])) false
      = [] :: graphSeg :: ['.'] :: [[]] := by
    rw [splitF_space, h2]
  have h4 : splitF (dtypeSeg ++ ' ' :: (graphSeg ++ ' ' :: '.' :: '\n' :: [])) false
      = dtypeSeg :: graphSeg :: ['.'] :: [[]] := by
    simpa using splitF_append_plain hdtype _ false h3
  have h5 : splitF ('"' :: (dtypeSeg ++ ' ' :: (graphSeg ++ ' ' :: '.' :: '\n' :: []))) true
      = ('"' :: dtypeSeg) :: graphSeg :: ['.'] :: [[]] :=
    splitF_quote _ true h4
  have h6 : splitF (lit ++ '"' :: (dtypeSeg ++ ' ' ::
        (graphSeg ++ ' ' :: '.' :: '\n' :: []))) true
      = (lit ++ '"' :: dtypeSeg) :: graphSeg :: ['.'] :: [[]] := by
    simpa using splitF_append_plain hlit _ true h5
  have h7 : splitF ('"' :: (lit ++ '"' :: (dtypeSeg ++ ' ' ::
        (graphSeg ++ ' ' :: '.' :: '\n' :: [])))) false
      = ('"' :: (lit ++ '"' :: dtypeSeg)) :: graphSeg :: ['.'] :: [[]] :=
    splitF_quote _ false h6
  have h8 : splitF (' ' :: '"' :: (lit ++ '"' :: (dtypeSeg ++ ' ' ::
        (graphSeg ++ ' ' :: '.' :: '\n' :: [])))) false
      = [] :: ('"' :: (lit ++ '"' :: dtypeSeg)) :: graphSeg :: ['.'] :: [[]] := by
    rw [splitF_space, h7]
  have h9 : splitF (predSeg ++ ' ' :: ('"' :: (lit ++ '"' :: (dtypeSeg ++ ' ' ::
        (graphSeg ++ ' ' :: '.' :: '\n' :: []))))) false
      = predSeg :: ('"' :: (lit ++ '"' :: dtypeSeg)) :: graphSeg :: ['.'] :: [[]] := by
    simpa using splitF_append_plain hpred _ false h8
  have h10 : splitF (' ' :: (predSeg ++ ' ' :: ('"' :: (lit ++ '"' ::
        (dtypeSeg ++ ' ' :: (graphSeg ++ ' ' :: '.' :: '\n' :: [])))))) false
      = [] :: predSeg :: ('"' :: (lit ++ '"' :: dtypeSeg)) :: graphSeg :: ['.'] :: [[]] := by
    rw [splitF_space, h9]
  have h11 : splitF (subj ++ ' ' :: (predSeg ++ ' ' :: ('"' :: (lit ++ '"' ::
        (dtypeSeg ++ ' ' :: (graphSeg ++ ' ' :: '.' :: '\n' :: [])))))) false
      = subj :: predSeg :: ('"' :: (lit ++ '"' :: dtypeSeg)) :: graphSeg :: ['.'] :: [[]] := by
    simpa using splitF_append_plain hsubj _ false h10
  have h12 : splitF (' ' :: (subj ++ ' ' :: (predSeg ++ ' ' :: ('"' :: (lit ++ '"' ::
        (dtypeSeg ++ ' ' :: (graphSeg ++ ' ' :: '.' :: '\n' :: []))))))) false
      = [] :: subj :: predSeg :: ('"' :: (lit ++ '"' :: dtypeSeg)) ::
          graphSeg :: ['.'] :: [[]] := by
    rw [splitF_space, h11]
  simpa using splitF_append_plain hts _ false h12

theorem bnot_isEmpty_of_ne_nil {l : List Char} (h : l ≠ []) : (!l.isEmpty) = true := by
  cases l with
  | nil => exact absurd rfl h
  | cons a l => rfl

theorem fieldsOf_quad (ts subj lit : List Char)
    (hts : ∀ c ∈ ts, plain c = true)
    (hsubj : ∀ c ∈ subj, plain c = true)
    (hlit : ∀ c ∈ lit, plain c = true)
    (htsne : ts ≠ []) (hsubjne : subj ≠ []) :
    fieldsOf (ts ++ ' ' :: (subj ++ ' ' :: (predSeg ++ ' ' ::
        ('"' :: (lit ++ '"' :: (dtypeSeg ++ ' ' ::
          (graphSeg ++ ' ' :: '.' :: '\n' :: [])))))))
      = [ts, subj, predSeg, '"' :: (lit ++ '"' :: dtypeSeg), graphSeg, ['.']] := by
  unfold fieldsOf
  rw [splitF_quadLine ts subj lit hts hsubj hlit]
  simp [List.filter_cons, bnot_isEmpty_of_ne_nil htsne, bnot_isEmpty_of_ne_nil hsubjne,
    predSeg, graphSeg]

/-! ## Helper lemmas: character classes of the rendered numbers -/

theorem digitChar_plain {n : ℕ} (h : n < 10) : plain (digitChar n) = true := by
  interval_cases n <;> decide

theorem digitChar_ne_dot {n : ℕ} (h : n < 10) : (digitChar n == '.') = false := by
  interval_cases n <;> decide

theorem natChars_plain (n : ℕ) : ∀ c ∈ natChars n, plain c = true := by
  induction n using Nat.strong_induction_on with
  | _ n ih =>
    intro c hc
    by_cases h10 : n < 10
    · rw [natChars, dif_pos h10] at hc
      simp at hc
      exact hc ▸ digitChar_plain h10
    · rw [natChars, dif_neg h10] at hc
      rcases List.mem_append.1 hc with h | h
      · exact ih (n / 10) (Nat.div_lt_self (by omega) (by omega)) c h
      · simp at h
        exact h ▸ digitChar_plain (Nat.mod_lt _ (by omega))

theorem natChars_ne_nil (n : ℕ) : natChars n ≠ [] := by
  rw [natChars]
  split <;> simp

theorem intChars_plain (n : ℤ) : ∀ c ∈ intChars n, plain c = true := by
  intro c hc
  unfold intChars at hc
  split at hc
  · rcases List.mem_cons.1 hc with h | h
    · subst h; decide
    · exact natChars_plain _ c h
  · exact natChars_plain _ c hc

theorem intChars_ne_nil (n : ℤ) : intChars n ≠ [] := by
  unfold intChars
  split <;> simp [natChars_ne_nil]

theorem fmt2Chars_plain (c : ℤ) : ∀ d ∈ fmt2Chars c, plain d = true := by
  intro d hd
  unfold fmt2Chars at hd
  rcases List.mem_append.1 hd with h | h
  · rcases List.mem_append.1 h with h' | h'
    · split at h'
      · rcases List.mem_singleton.1 h' with rfl
        decide
      · simp at h'
    · exact natChars_plain _ d h'
  · rcases List.mem_cons.1 h with h' | h'
    · subst h'; decide
    · simp at h'
      rcases h' with h' | h'
      · exact h' ▸ digitChar_plain (Nat.mod_lt _ (by omega))
      · exact h' ▸ digitChar_plain (Nat.mod_lt _ (by omega))

/-! ## Helper lemmas: decomposition of the four emitted line shapes -/

theorem histLine1_data (now : ℤ) (i : ℕ) :
    (histLine1 now i).data = intChars (histTimestamp now i) ++ ' ' ::
      ("<http://example.org/sensor1>".data ++ ' ' :: (predSeg ++ ' ' ::
        ('"' :: (natChars (histVal1 i) ++ '"' :: (dtypeSeg ++ ' ' ::
          (graphSeg ++ ' ' :: '.' :: '\n' :: [])))))) := by
  have h1 : (" <http://example.org/sensor1> <http://example.org/temperature> \"" : String).data
      = ' ' :: ("<http://example.org/sensor1>".data ++ ' ' :: (predSeg ++ [' ', '"'])) := by
    decide
  have h2 : ("\"^^<http://www.w3.org/2001/XMLSchema#decimal> <http://example.org/sensorStream> .\n" : String).data
      = '"' :: (dtypeSeg ++ ' ' :: (graphSeg ++ ' ' :: '.' :: '\n' :: [])) := by
    decide
  simp only [histLine1, intStr, natStr, String.data_append, h1, h2]
  simp [predSeg, dtypeSeg, graphSeg, List.append_assoc]

theorem histLine2_data (now : ℤ) (i : ℕ) :
    (histLine2 now i).data = intChars (histTimestamp now i) ++ ' ' ::
      ("<http://example.org/sensor2>".data ++ ' ' :: (predSeg ++ ' ' ::
        ('"' :: (natChars (histVal2 i) ++ '"' :: (dtypeSeg ++ ' ' ::
          (graphSeg ++ ' ' :: '.' :: '\n' :: [])))))) := by
  have h1 : (" <http://example.org/sensor2> <http://example.org/temperature> \"" : String).data
      = ' ' :: ("<http://example.org/sensor2>".data ++ ' ' :: (predSeg ++ [' ', '"'])) := by
    decide
  have h2 : ("\"^^<http://www.w3.org/2001/XMLSchema#decimal> <http://example.org/sensorStream> .\n" : String).data
      = '"' :: (dtypeSeg ++ ' ' :: (graphSeg ++ ' ' :: '.' :: '\n' :: [])) := by
    decide
  simp only [histLine2, intStr, natStr, String.data_append, h1, h2]
  simp [predSeg, dtypeSeg, graphSeg, List.append_assoc]

theorem realLine1_data (i : ℕ) (n : ℝ) :
    (realLine1 i n).data = natChars (realTimestamp i) ++ ' ' ::
      ("<http://example.org/sensor1>".data ++ ' ' :: (predSeg ++ ' ' ::
        ('"' :: (fmt2Chars (round (100 * val1 i n)) ++ '"' :: (dtypeSeg ++ ' ' ::
          (graphSeg ++ ' ' :: '.' :: '\n' :: [])))))) := by
  have h1 : (" <http://example.org/sensor1> <http://example.org/temperature> \"" : String).data
      = ' ' :: ("<http://example.org/sensor1>".data ++ ' ' :: (predSeg ++ [' ', '"'])) := by
    decide
  have h2 : ("\"^^<http://www.w3.org/2001/XMLSchema#decimal> <http://example.org/sensorStream> .\n" : String).data
      = '"' :: (dtypeSeg ++ ' ' :: (graphSeg ++ ' ' :: '.' :: '\n' :: [])) := by
    decide
  simp only [realLine1, natStr, fmtF2, String.data_append, h1, h2]
  simp [predSeg, dtypeSeg, graphSeg, List.append_assoc]

theorem realLine2_data (i : ℕ) (n : ℝ) :
    (realLine2 i n).data = natChars (realTimestamp i) ++ ' ' ::
      ("<http://example.org/sensor2>".data ++ ' ' :: (predSeg ++ ' ' ::
        ('"' :: (fmt2Chars (round (100 * val2 i n)) ++ '"' :: (dtypeSeg ++ ' ' ::
          (graphSeg ++ ' ' :: '.' :: '\n' :: [])))))) := by
  have h1 : (" <http://example.org/sensor2> <http://example.org/temperature> \"" : String).data
      = ' ' :: ("<http://example.org/sensor2>".data ++ ' ' :: (predSeg ++ [' ', '"'])) := by
    decide
  have h2 : ("\"^^<http://www.w3.org/2001/XMLSchema#decimal> <http://example.org/sensorStream> .\n" : String).data
      = '"' :: (dtypeSeg ++ ' ' :: (graphSeg ++ ' ' :: '.' :: '\n' :: [])) := by
    decide
  simp only [realLine2, natStr, fmtF2, String.data_append, h1, h2]
  simp [predSeg, dtypeSeg, graphSeg, List.append_assoc]

theorem fields_histLine1 (now : ℤ) (i : ℕ) :
    lineFields (histLine1 now i)
      = [intChars (histTimestamp now i), "<http://example.org/sensor1>".data, predSeg,
          '"' :: (natChars (histVal1 i) ++ '"' :: dtypeSeg), graphSeg, ['.']] := by
  unfold lineFields
  rw [histLine1_data]
  exact fieldsOf_quad _ _ _ (intChars_plain _) (by decide) (natChars_plain _)
    (intChars_ne_nil _) (by decide)

theorem fields_histLine2 (now : ℤ) (i : ℕ) :
    lineFields (histLine2 now i)
      = [intChars (histTimestamp now i), "<http://example.org/sensor2>".data, predSeg,
          '"' :: (natChars (histVal2 i) ++ '"' :: dtypeSeg), graphSeg, ['.']] := by
  unfold lineFields
  rw [histLine2_data]
  exact fieldsOf_quad _ _ _ (intChars_plain _) (by decide) (natChars_plain _)
    (intChars_ne_nil _) (by decide)

theorem fields_realLine1 (i : ℕ) (n : ℝ) :
    lineFields (realLine1 i n)
      = [natChars (realTimestamp i), "<http://example.org/sensor1>".data, predSeg,
          '"' :: (fmt2Chars (round (100 * val1 i n)) ++ '"' :: dtypeSeg), graphSeg, ['.']] := by
  unfold lineFields
  rw [realLine1_data]
  exact fieldsOf_quad _ _ _ (natChars_plain _) (by decide) (fmt2Chars_plain _)
    (natChars_ne_nil _) (by decide)

theorem fields_realLine2 (i : ℕ) (n : ℝ) :
    lineFields (realLine2 i n)
      = [natChars (realTimestamp i), "<http://example.org/sensor2>".data, predSeg,
          '"' :: (fmt2Chars (round (100 * val2 i n)) ++ '"' :: dtypeSeg), graphSeg, ['.']] := by
  unfold lineFields
  rw [realLine2_data]
  exact fieldsOf_quad _ _ _ (natChars_plain _) (by decide) (fmt2Chars_plain _)
    (natChars_ne_nil _) (by decide)

/-! ## Helper lemmas: last character of a line -/

theorem lastChar_append {l r : List Char} {c : Char} (h : r.getLast? = some c) :
    (l ++ r).getLast? = some c := by
  rw [List.getLast?_append_of_ne_nil]
  · exact h
  · intro e; simp [e] at h

theorem lastChar_cons {a c : Char} {r : List Char} (h : r.getLast? = some c) :
    (a :: r).getLast? = some c := by
  have e : a :: r = [a] ++ r := rfl
  rw [e]
  exact lastChar_append h

theorem quadLine_lastChar (ts subj lit : List Char) :
    (ts ++ ' ' :: (subj ++ ' ' :: (predSeg ++ ' ' ::
        ('"' :: (lit ++ '"' :: (dtypeSeg ++ ' ' ::
          (graphSeg ++ ' ' :: '.' :: '\n' :: []))))))).getLast? = some '\n' := by
  apply lastChar_append
  apply lastChar_cons
  apply lastChar_append
  apply lastChar_cons
  apply lastChar_append
  apply lastChar_cons
  apply lastChar_cons
  apply lastChar_append
  apply lastChar_cons
  apply lastChar_append
  apply lastChar_cons
  apply lastChar_append
  decide

/-! ## Helper lemmas: two fractional digits -/

theorem fmt2Chars_fracDigits (c : ℤ) :
    fracDigitsLen ⟨fmt2Chars c⟩ = 2 ∧ '.' ∈ fmt2Chars c := by
  constructor
  · have hrev : (fmt2Chars c).reverse
        = digitChar (c.natAbs % 10) :: digitChar (c.natAbs / 10 % 10) :: '.' ::
            ((natChars (c.natAbs / 100)).reverse ++ (if c < 0 then ['-'] else []).reverse) := by
      simp [fmt2Chars]
    show ((fmt2Chars c).reverse.takeWhile _).length = 2
    rw [hrev]
    rw [List.takeWhile_cons_of_pos (by
      simpa using digitChar_ne_dot (Nat.mod_lt _ (show 0 < 10 by omega) : c.natAbs % 10 < 10))]
    rw [List.takeWhile_cons_of_pos (by
      simpa using digitChar_ne_dot (Nat.mod_lt _ (show 0 < 10 by omega) : c.natAbs / 10 % 10 < 10))]
    rw [List.takeWhile_cons_of_neg (by simp)]
    rfl
  · simp [fmt2Chars]

/-! ## Helper lemmas: the write loop -/

theorem emitLoop_length (f g : ℕ → String) : ∀ n, (emitLoop f g n).length = 2 * n := by
  intro n
  induction n with
  | zero => rfl
  | succ n ih => simp [emitLoop, ih]; omega

theorem emitLoop_get_even (f g : ℕ → String) {n i : ℕ} (h : i < n) :
    (emitLoop f g n)[2 * i]? = some (f i) := by
  induction n with
  | zero => omega
  | succ n ih =>
    rcases Nat.lt_succ_iff_lt_or_eq.1 h with h' | h'
    · rw [emitLoop, List.getElem?_append_left (by rw [emitLoop_length]; omega)]
      exact ih h'
    · subst h'
      rw [emitLoop, List.getElem?_append_right (by rw [emitLoop_length])]
      simp [emitLoop_length]


theorem emitLoop_get_odd (f g : ℕ → String) {n i : ℕ} (h : i < n) :
    (emitLoop f g n)[2 * i + 1]? = some (g i) := by
  induction n with
  | zero => omega
  | succ n ih =>
    rcases Nat.lt_succ_iff_lt_or_eq.1 h with h' | h'
    · rw [emitLoop, List.getElem?_append_left (by rw [emitLoop_length]; omega)]
      exact ih h'
    · subst h'
      rw [emitLoop, List.getElem?_append_right (by rw [emitLoop_length]; omega)]
      have e : 2 * i + 1 - (emitLoop f g i).length = 1 := by rw [emitLoop_length]; omega
      rw [e]
      rfl

theorem writeSeq_all_ok (ok : ℕ → Bool) :
    ∀ (ls : List String) (s : ℕ), (∀ j, j < ls.length → ok (s + j) = true) →
      writeSeq ok s ls = (true, ls) := by
  intro ls
  induction ls with
  | nil => intro s _; rfl
  | cons l ls ih =>
    intro s h
    have h0 : ok s = true := by simpa using h 0 (by simp)
    have hrest : ∀ j, j < ls.length → ok (s + 1 + j) = true := by
      intro j hj
      have := h (j + 1) (by simpa using Nat.succ_lt_succ hj)
      have e : s + (j + 1) = s + 1 + j := by omega
      rwa [e] at this
    simp [writeSeq, h0, ih (s + 1) hrest]

theorem writeSeq_fail (ok : ℕ → Bool) :
    ∀ (ls : List String) (s k : ℕ), k < ls.length →
      (∀ j, j < k → ok (s + j) = true) → ok (s + k) = false →
      writeSeq ok s ls = (false, ls.take k) := by
  intro ls
  induction ls with
  | nil => intro s k hk; simp at hk
  | cons l ls ih =>
    intro s k hk hpre hfail
    cases k with
    | zero =>
      have h0 : ok s = false := by simpa using hfail
      simp [writeSeq, h0]
    | succ k =>
      have h0 : ok s = true := by simpa using hpre 0 (by omega)
      have hpre' : ∀ j, j < k → ok (s + 1 + j) = true := by
        intro j hj
        have := hpre (j + 1) (by omega)
        have e : s + (j + 1) = s + 1 + j := by omega
        rwa [e] at this
      have hfail' : ok (s + 1 + k) = false := by
        have e : s + (k + 1) = s + 1 + k := by omega
        rwa [e] at hfail
      have hrec := ih (s + 1) k (by simpa using Nat.lt_of_succ_lt_succ hk) hpre' hfail'
      simp [writeSeq, h0, hrec]

end Janus

namespace Janus

/-! ## The claims -/

/-- **C1.** For every index `i < 100` the historical generator's sensor-1
literal value is `20 + (i % 5)` and its sensor-2 value is `22 + (i % 5)`;
hence the sensor-1 value lies in `{20,…,24}` and the sensor-2 value in
`{22,…,26}`. -/
theorem C1_hist_values (i : ℕ) (hi : i < 100) :
    histVal1 i = 20 + (i % 5) ∧ histVal2 i = 22 + (i % 5) ∧
    histVal1 i ∈ ({20, 21, 22, 23, 24} : Set ℕ) ∧
    histVal2 i ∈ ({22, 23, 24, 25, 26} : Set ℕ) := by
  refine ⟨rfl, rfl, ?_, ?_⟩ <;>
  · have h5 : i % 5 < 5 := Nat.mod_lt _ (by omega)
    simp only [histVal1, histVal2, Set.mem_insert_iff, Set.mem_singleton_iff]
    omega

theorem C1_hist_values_witness :
    (3 : ℕ) < 100 ∧
    (histVal1 3 = 20 + (3 % 5) ∧ histVal2 3 = 22 + (3 % 5) ∧
      histVal1 3 ∈ ({20, 21, 22, 23, 24} : Set ℕ) ∧
      histVal2 3 ∈ ({22, 23, 24, 25, 26} : Set ℕ)) :=
  ⟨by decide, C1_hist_values 3 (by decide)⟩

/-- **C2.** The historical generator computes `one_hour_ago = now − 3 600 000`
and at every index `i < 100` emits the timestamp `(now − 3 600 000) + 1000·i`;
the emitted timestamp field of the sensor-1 and sensor-2 lines at the same
index is the same character sequence; same-sensor timestamps increase by
exactly 1000 per index; and with `now = 1700000000000` line 0 carries
timestamp `1699996400000`. -/
theorem C2_hist_timestamps (now : ℤ) (i : ℕ) (hi : i < 100) :
    one_hour_ago now = now - 3600000 ∧
    histTimestamp now i = (now - 3600000) + 1000 * i ∧
    (lineFields (histLine1 now i))[0]? = some (intChars (histTimestamp now i)) ∧
    (lineFields (histLine2 now i))[0]? = some (intChars (histTimestamp now i)) ∧
    histTimestamp now (i + 1) = histTimestamp now i + 1000 ∧
    histTimestamp 1700000000000 0 = 1699996400000 := by
  refine ⟨rfl, ?_, ?_, ?_, ?_, by norm_num [histTimestamp, one_hour_ago]⟩
  · simp only [histTimestamp, one_hour_ago]; ring
  · rw [fields_histLine1]; rfl
  · rw [fields_histLine2]; rfl
  · simp only [histTimestamp, one_hour_ago]; push_cast; ring

theorem C2_hist_timestamps_witness :
    (0 : ℕ) < 100 ∧
    (one_hour_ago 1700000000000 = 1700000000000 - 3600000 ∧
      histTimestamp 1700000000000 0 = (1700000000000 - 3600000) + 1000 * 0 ∧
      (lineFields (histLine1 1700000000000 0))[0]?
        = some (intChars (histTimestamp 1700000000000 0)) ∧
      (lineFields (histLine2 1700000000000 0))[0]?
        = some (intChars (histTimestamp 1700000000000 0)) ∧
      histTimestamp 1700000000000 (0 + 1) = histTimestamp 1700000000000 0 + 1000 ∧
      histTimestamp 1700000000000 0 = 1699996400000) :=
  ⟨by decide, C2_hist_timestamps 1700000000000 0 (by decide)⟩

/-- **C3.** For every index `i < 1000` and noise draws `n1, n2 ∈ [-0.5, 0.5]`,
the realistic generator's pre-formatting sensor-1 value is
`23.0 + 2.0·sin(i·2π/100) + n1` and its sensor-2 value is
`23.0 + 2.0·cos(i·2π/100) + n2`; at `i = 0` the sensor-1 value lies in
`[22.5, 23.5]` and the sensor-2 value in `[24.5, 25.5]`; and every emitted
literal is formatted with exactly 2 fractional digits. -/
theorem C3_real_values (i : ℕ) (n1 n2 : ℝ) (hi : i < 1000)
    (h1 : n1 ∈ Set.Icc (-0.5 : ℝ) 0.5) (h2 : n2 ∈ Set.Icc (-0.5 : ℝ) 0.5) :
    val1 i n1 = 23.0 + 2.0 * Real.sin (i * 2 * Real.pi / 100) + n1 ∧
    val2 i n2 = 23.0 + 2.0 * Real.cos (i * 2 * Real.pi / 100) + n2 ∧
    val1 0 n1 ∈ Set.Icc (22.5 : ℝ) 23.5 ∧
    val2 0 n2 ∈ Set.Icc (24.5 : ℝ) 25.5 ∧
    fracDigitsLen (fmtF2 (val1 i n1)) = 2 ∧ '.' ∈ (fmtF2 (val1 i n1)).data ∧
    fracDigitsLen (fmtF2 (val2 i n2)) = 2 ∧ '.' ∈ (fmtF2 (val2 i n2)).data := by
  obtain ⟨h1a, h1b⟩ := h1
  obtain ⟨h2a, h2b⟩ := h2
  refine ⟨rfl, rfl, ?_, ?_, (fmt2Chars_fracDigits _).1, (fmt2Chars_fracDigits _).2,
    (fmt2Chars_fracDigits _).1, (fmt2Chars_fracDigits _).2⟩
  · have hs : sine_component 0 = 0 := by
      simp [sine_component]
    rw [Set.mem_Icc, val1, hs, base_temp]
    norm_num
    constructor <;> linarith
  · have hc : cosine_component 0 = 2 := by
      norm_num [cosine_component, Real.cos_zero]
    rw [Set.mem_Icc, val2, hc, base_temp]
    norm_num
    constructor <;> linarith

theorem C3_real_values_witness :
    (0 : ℕ) < 1000 ∧ (0 : ℝ) ∈ Set.Icc (-0.5 : ℝ) 0.5 ∧
    (val1 0 0 = 23.0 + 2.0 * Real.sin ((0 : ℕ) * 2 * Real.pi / 100) + 0 ∧
      val2 0 0 = 23.0 + 2.0 * Real.cos ((0 : ℕ) * 2 * Real.pi / 100) + 0 ∧
      val1 0 0 ∈ Set.Icc (22.5 : ℝ) 23.5 ∧
      val2 0 0 ∈ Set.Icc (24.5 : ℝ) 25.5 ∧
      fracDigitsLen (fmtF2 (val1 0 0)) = 2 ∧ '.' ∈ (fmtF2 (val1 0 0)).data ∧
      fracDigitsLen (fmtF2 (val2 0 0)) = 2 ∧ '.' ∈ (fmtF2 (val2 0 0)).data) :=
  ⟨by decide, by norm_num,
    C3_real_values 0 0 0 (by decide) (by norm_num) (by norm_num)⟩

/-- **C4.** For every index `i < 1000` the realistic generator's timestamp
is `1000 · i`, a purely index-based value shared by both sensor lines at
that index (both are built from `realTimestamp i`), with no dependence on
wall-clock time. -/
theorem C4_real_timestamps (i : ℕ) (hi : i < 1000) :
    realTimestamp i = 1000 * i ∧
    (lineFields (realLine1 i 0))[0]? = some (natChars (realTimestamp i)) ∧
    (lineFields (realLine2 i 0))[0]? = some (natChars (realTimestamp i)) := by
  refine ⟨rfl, ?_, ?_⟩
  · rw [fields_realLine1]; rfl
  · rw [fields_realLine2]; rfl

theorem C4_real_timestamps_witness :
    (7 : ℕ) < 1000 ∧
    (realTimestamp 7 = 1000 * 7 ∧
      (lineFields (realLine1 7 0))[0]? = some (natChars (realTimestamp 7)) ∧
      (lineFields (realLine2 7 0))[0]? = some (natChars (realTimestamp 7))) :=
  ⟨by decide, C4_real_timestamps 7 (by decide)⟩

/-- **C5.** Every line emitted by either generator splits (on unquoted
whitespace) into exactly the 5 logical fields — timestamp, subject URI,
predicate URI `<http://example.org/temperature>`, quoted literal tagged
`^^<http://www.w3.org/2001/XMLSchema#decimal>`, graph URI
`<http://example.org/sensorStream>` — followed by a trailing `"."` token,
and ends with a newline character. -/
theorem C5_line_format (now : ℤ) (i j : ℕ) (n m : ℝ) :
    lineFields (histLine1 now i)
      = [intChars (histTimestamp now i), "<http://example.org/sensor1>".data, predSeg,
          '"' :: (natChars (histVal1 i) ++ '"' :: dtypeSeg), graphSeg, ['.']] ∧
    lineFields (histLine2 now i)
      = [intChars (histTimestamp now i), "<http://example.org/sensor2>".data, predSeg,
          '"' :: (natChars (histVal2 i) ++ '"' :: dtypeSeg), graphSeg, ['.']] ∧
    lineFields (realLine1 j n)
      = [natChars (realTimestamp j), "<http://example.org/sensor1>".data, predSeg,
          '"' :: (fmt2Chars (round (100 * val1 j n)) ++ '"' :: dtypeSeg), graphSeg, ['.']] ∧
    lineFields (realLine2 j m)
      = [natChars (realTimestamp j), "<http://example.org/sensor2>".data, predSeg,
          '"' :: (fmt2Chars (round (100 * val2 j m)) ++ '"' :: dtypeSeg), graphSeg, ['.']] ∧
    (histLine1 now i).data.getLast? = some '\n' ∧
    (histLine2 now i).data.getLast? = some '\n' ∧
    (realLine1 j n).data.getLast? = some '\n' ∧
    (realLine2 j m).data.getLast? = some '\n' := by
  refine ⟨fields_histLine1 now i, fields_histLine2 now i, fields_realLine1 j n,
    fields_realLine2 j m, ?_, ?_, ?_, ?_⟩
  · rw [histLine1_data]; exact quadLine_lastChar _ _ _
  · rw [histLine2_data]; exact quadLine_lastChar _ _ _
  · rw [realLine1_data]; exact quadLine_lastChar _ _ _
  · rw [realLine2_data]; exact quadLine_lastChar _ _ _

/-- **C6.** A completed run of the historical generator writes exactly
200 lines (100 indices × 2 sensors), and a completed run of the realistic
generator writes exactly 2000 lines (1000 indices × 2 sensors). -/
theorem C6_line_counts (now : ℤ) (n1 n2 : ℕ → ℝ) :
    (histLines now).length = 200 ∧ (realLines n1 n2).length = 2000 := by
  constructor
  · have h := emitLoop_length (histLine1 now) (histLine2 now) 100
    simpa [histLines] using h
  · have h := emitLoop_length (fun i => realLine1 i (n1 i)) (fun i => realLine2 i (n2 i))
      num_points
    simpa [realLines, num_points] using h

/-- **C7.** Each generator opens its output file in truncate mode, so after
a completed run the file holds exactly that run's lines whatever it held
before; re-running leaves no residual lines, and running twice gives the
same contents as running once (for the same run inputs). -/
theorem C7_truncate_idempotent (now : ℤ) (n1 n2 : ℕ → ℝ) (prior prior2 : List String) :
    runHistorical now prior = histLines now ∧
    runRealistic n1 n2 prior = realLines n1 n2 ∧
    runHistorical now prior = runHistorical now prior2 ∧
    runRealistic n1 n2 prior = runRealistic n1 n2 prior2 ∧
    runHistorical now (runHistorical now prior) = runHistorical now prior ∧
    runRealistic n1 n2 (runRealistic n1 n2 prior) = runRealistic n1 n2 prior := by
  have h : ∀ p, runHistorical now p = histLines now := fun _ => List.nil_append _
  have hr : ∀ p, runRealistic n1 n2 p = realLines n1 n2 := fun _ => List.nil_append _
  exact ⟨h prior, hr prior, (h prior).trans (h prior2).symm,
    (hr prior).trans (hr prior2).symm, (h _).trans (h prior).symm,
    (hr _).trans (hr prior).symm⟩

/-- **C8.** Under the fault model of the `with open(...)` block: a failed
open propagates (leaving the prior contents) with the handle closed; the
first failing write (call `k`, after `k` successful writes) propagates the
exception with the file holding exactly the first `k` lines — no retry and
no cleanup — and the handle closed; a fault-free run exits normally with
all lines written and the handle closed. -/
theorem C8_failure_semantics (lines prior : List String) (ok : ℕ → Bool) (k : ℕ)
    (hk : k < lines.length) (hpre : ∀ j, j < k → ok j = true) (hfail : ok k = false) :
    (runScoped lines true ok prior).raised = true ∧
    (runScoped lines true ok prior).contents = lines.take k ∧
    (runScoped lines true ok prior).closed = true ∧
    (runScoped lines false ok prior).raised = true ∧
    (runScoped lines false ok prior).contents = prior ∧
    (runScoped lines false ok prior).closed = true ∧
    (runScoped lines true (fun _ => true) prior).raised = false ∧
    (runScoped lines true (fun _ => true) prior).contents = lines ∧
    (runScoped lines true (fun _ => true) prior).closed = true := by
  have hw := writeSeq_fail ok lines 0 k hk
    (by intro j hj; simpa using hpre j hj) (by simpa using hfail)
  have hok := writeSeq_all_ok (fun _ => true) lines 0 (fun j _ => rfl)
  refine ⟨?_, ?_, rfl, rfl, rfl, rfl, ?_, ?_, rfl⟩
  · show (!(writeSeq ok 0 lines).1) = true
    rw [hw]
    rfl
  · show (writeSeq ok 0 lines).2 = lines.take k
    rw [hw]
  · show (!(writeSeq (fun _ => true) 0 lines).1) = false
    rw [hok]
    rfl
  · show (writeSeq (fun _ => true) 0 lines).2 = lines
    rw [hok]

theorem C8_failure_semantics_witness :
    (1 : ℕ) < (["a", "b"] : List String).length ∧
    (fun j : ℕ => decide (j = 0)) 1 = false ∧
    ((runScoped ["a", "b"] true (fun j => decide (j = 0)) ["x"]).raised = true ∧
      (runScoped ["a", "b"] true (fun j => decide (j = 0)) ["x"]).contents
        = (["a", "b"] : List String).take 1 ∧
      (runScoped ["a", "b"] true (fun j => decide (j = 0)) ["x"]).closed = true ∧
      (runScoped ["a", "b"] false (fun j => decide (j = 0)) ["x"]).raised = true ∧
      (runScoped ["a", "b"] false (fun j => decide (j = 0)) ["x"]).contents = ["x"] ∧
      (runScoped ["a", "b"] false (fun j => decide (j = 0)) ["x"]).closed = true ∧
      (runScoped ["a", "b"] true (fun _ => true) ["x"]).raised = false ∧
      (runScoped ["a", "b"] true (fun _ => true) ["x"]).contents = ["a", "b"] ∧
      (runScoped ["a", "b"] true (fun _ => true) ["x"]).closed = true) :=
  ⟨by decide, by decide,
    C8_failure_semantics ["a", "b"] ["x"] (fun j => decide (j = 0)) 1
      (by decide) (by decide) (by decide)⟩

/-- **C9.** The historical generator uses no randomness: its output is a
function of the single wall-clock sample `now` alone, so two runs
observing the same `now` produce identical lines and byte-identical file
text, whatever the ambient randomness source holds. -/
theorem C9_hist_deterministic (now : ℤ) (rng rng2 : ℕ → ℝ) :
    histRun now rng = histRun now rng2 ∧
    histRun now rng = histLines now ∧
    fileText (histRun now rng) = fileText (histRun now rng2) :=
  ⟨rfl, rfl, rfl⟩

/-- **C10.** In both output files the lines strictly alternate by sensor:
for every index, line `2·i` (0-based) is the sensor-1 record and line
`2·i + 1` the sensor-2 record of that index, so each index's sensor-1 line
immediately precedes its sensor-2 line. -/
theorem C10_alternation (now : ℤ) (n1 n2 : ℕ → ℝ) (i j : ℕ)
    (hi : i < 100) (hj : j < 1000) :
    (histLines now)[2 * i]? = some (histLine1 now i) ∧
    (histLines now)[2 * i + 1]? = some (histLine2 now i) ∧
    (realLines n1 n2)[2 * j]? = some (realLine1 j (n1 j)) ∧
    (realLines n1 n2)[2 * j + 1]? = some (realLine2 j (n2 j)) := by
  refine ⟨?_, ?_, ?_, ?_⟩
  · exact emitLoop_get_even _ _ hi
  · exact emitLoop_get_odd _ _ hi
  · exact emitLoop_get_even _ _ hj
  · exact emitLoop_get_odd _ _ hj

theorem C10_alternation_witness :
    (0 : ℕ) < 100 ∧ (0 : ℕ) < 1000 ∧
    ((histLines 1700000000000)[2 * 0]? = some (histLine1 1700000000000 0) ∧
      (histLines 1700000000000)[2 * 0 + 1]? = some (histLine2 1700000000000 0) ∧
      (realLines (fun _ => 0) (fun _ => 0))[2 * 0]? = some (realLine1 0 0) ∧
      (realLines (fun _ => 0) (fun _ => 0))[2 * 0 + 1]? = some (realLine2 0 0)) :=
  ⟨by decide, by decide,
    C10_alternation 1700000000000 (fun _ => 0) (fun _ => 0) 0 0 (by decide) (by decide)⟩

end Janus
